import Mathlib

/-!
Verification of the JSValue tag space and the three physical value encodings
declared in quickjs.h: the struct encoding (default, 64-bit builds), the
NaN-boxed encoding (JS_NAN_BOXING, 32-bit builds) and the checked encoding
(JS_CHECK_JSVALUE, diagnostic only).

Machine integers are embedded as Nat / Int with explicit wrapping:
a C uint32/uint64 is a Nat reduced mod 2^32 / 2^64, a C int32 is an Int in
[-2^31, 2^31). IEEE-754 doubles are embedded by their 64-bit bit pattern
(a Nat below 2^64); this is exact, since the header manipulates doubles
only through their bit patterns (union type punning) apart from the
int-to-double casts, which are modelled by an executable round-to-nearest
conversion on bit patterns.
-/

set_option maxRecDepth 4096

/-- C cast to uint32_t: reduce an integer mod 2^32. -/
def u32 (x : Int) : Nat := (x % 4294967296).toNat

/-- C cast to uint64_t: reduce an integer mod 2^64. -/
def u64 (x : Int) : Nat := (x % 18446744073709551616).toNat

/-- C cast of a (wider) integer to int32_t: two's-complement wrap into [-2^31, 2^31). -/
def wrap32 (x : Int) : Int := (x + 2147483648) % 4294967296 - 2147483648

/-- C cast of an unsigned word to int (int32_t): reinterpret the low 32 bits as signed. -/
def i32 (n : Nat) : Int := wrap32 (n : Int)

/-- Reinterpret the low 64 bits of an unsigned word as a signed int64
(two's complement). -/
def i64 (n : Nat) : Int :=
  if n % 18446744073709551616 < 9223372036854775808 then (n % 18446744073709551616 : Nat)
  else (n % 18446744073709551616 : Nat) - 18446744073709551616

/-- The NaN test on a double bit pattern, as both JS_VALUE_IS_NAN bodies and
__JS_NewFloat64 compute it: (bits & 0x7fffffffffffffff) > 0x7ff0000000000000. -/
def f64_is_nan (b : Nat) : Bool := b &&& 0x7fffffffffffffff > 0x7ff0000000000000

/-- Round n / 2^s to the nearest integer, ties to even (the IEEE-754
default rounding used by integer-to-double conversion). -/
def f64round (n s : Nat) : Nat :=
  if 2 * (n % 2 ^ s) > 2 ^ s ∨ (2 * (n % 2 ^ s) = 2 ^ s ∧ (n / 2 ^ s) % 2 = 1) then
    n / 2 ^ s + 1
  else n / 2 ^ s

/-- Bit pattern of the IEEE-754 double nearest to the natural number n
(round to nearest, ties to even); models the C cast of a nonnegative
integer to double. -/
def natToF64bits (n : Nat) : Nat :=
  if n = 0 then 0
  else if Nat.log2 n ≤ 52 then
    (Nat.log2 n + 1023) * 4503599627370496 + (n * 2 ^ (52 - Nat.log2 n) - 4503599627370496)
  else if f64round n (Nat.log2 n - 52) = 9007199254740992 then
    (Nat.log2 n + 1024) * 4503599627370496
  else (Nat.log2 n + 1023) * 4503599627370496 + (f64round n (Nat.log2 n - 52) - 4503599627370496)

/-- Bit pattern of the IEEE-754 double nearest to the integer v; models the
C cast (double)v for a 64-bit signed integer. -/
def i64ToF64 (v : Int) : Nat :=
  if 0 ≤ v then natToF64bits v.toNat else 9223372036854775808 + natToF64bits (-v).toNat

/-! The tag enumeration of quickjs.h: all tags with a reference count are
negative, JS_TAG_FIRST is the first (lowest) negative tag. -/

def JS_TAG_FIRST : Int := -9

def JS_TAG_BIG_INT : Int := -9

def JS_TAG_SYMBOL : Int := -8

def JS_TAG_STRING : Int := -7

def JS_TAG_MODULE : Int := -3

def JS_TAG_FUNCTION_BYTECODE : Int := -2

def JS_TAG_OBJECT : Int := -1

def JS_TAG_INT : Int := 0

def JS_TAG_BOOL : Int := 1

def JS_TAG_NULL : Int := 2

def JS_TAG_UNDEFINED : Int := 3

def JS_TAG_UNINITIALIZED : Int := 4

def JS_TAG_CATCH_OFFSET : Int := 5

def JS_TAG_EXCEPTION : Int := 6

def JS_TAG_SHORT_BIG_INT : Int := 7

def JS_TAG_FLOAT64 : Int := 8

/-- The full enumerated tag set of the header. -/
def jsEnumTags : List Int :=
  [JS_TAG_BIG_INT, JS_TAG_SYMBOL, JS_TAG_STRING, JS_TAG_MODULE,
   JS_TAG_FUNCTION_BYTECODE, JS_TAG_OBJECT, JS_TAG_INT, JS_TAG_BOOL,
   JS_TAG_NULL, JS_TAG_UNDEFINED, JS_TAG_UNINITIALIZED, JS_TAG_CATCH_OFFSET,
   JS_TAG_EXCEPTION, JS_TAG_SHORT_BIG_INT, JS_TAG_FLOAT64]

/-- The six reference-counted tags (the negative ones). -/
def jsRefCountedTags : List Int :=
  [JS_TAG_BIG_INT, JS_TAG_SYMBOL, JS_TAG_STRING, JS_TAG_MODULE,
   JS_TAG_FUNCTION_BYTECODE, JS_TAG_OBJECT]

/-- The enumerated tags that are not reference counted. -/
def jsInlineTags : List Int :=
  [JS_TAG_INT, JS_TAG_BOOL, JS_TAG_NULL, JS_TAG_UNDEFINED, JS_TAG_UNINITIALIZED,
   JS_TAG_CATCH_OFFSET, JS_TAG_EXCEPTION, JS_TAG_SHORT_BIG_INT, JS_TAG_FLOAT64]

/-- The enumerated tags other than JS_TAG_FLOAT64. -/
def jsNonFloatTags : List Int :=
  [JS_TAG_BIG_INT, JS_TAG_SYMBOL, JS_TAG_STRING, JS_TAG_MODULE,
   JS_TAG_FUNCTION_BYTECODE, JS_TAG_OBJECT, JS_TAG_INT, JS_TAG_BOOL,
   JS_TAG_NULL, JS_TAG_UNDEFINED, JS_TAG_UNINITIALIZED, JS_TAG_CATCH_OFFSET,
   JS_TAG_EXCEPTION, JS_TAG_SHORT_BIG_INT]

namespace NB

/-! The JS_NAN_BOXING layout: `typedef uint64_t JSValue;`. A JSValue of
this layout is embedded directly as a Nat, meaningful when below 2^64. -/

/-- JS_VALUE_GET_TAG(v) = (int)((v) >> 32). -/
def JS_VALUE_GET_TAG (v : Nat) : Int := i32 (v >>> 32)

/-- JS_VALUE_GET_INT(v) = (int)(v). -/
def JS_VALUE_GET_INT (v : Nat) : Int := i32 v

/-- JS_VALUE_GET_BOOL(v) = (int)(v). -/
def JS_VALUE_GET_BOOL (v : Nat) : Int := i32 v

/-- JS_VALUE_GET_SHORT_BIG_INT(v) = (int)(v). -/
def JS_VALUE_GET_SHORT_BIG_INT (v : Nat) : Int := i32 v

/-- JS_MKVAL(tag, val) = ((uint64_t)(tag) << 32) | (uint32_t)(val). -/
def JS_MKVAL (tag val : Int) : Nat :=
  ((u64 tag <<< 32) % 18446744073709551616) ||| u32 val

/-- JS_MKPTR(tag, ptr) = ((uint64_t)(tag) << 32) | (uintptr_t)(ptr); under
NaN boxing uintptr_t is 32 bits wide. -/
def JS_MKPTR (tag : Int) (ptr : Nat) : Nat :=
  ((u64 tag <<< 32) % 18446744073709551616) ||| (ptr % 4294967296)

/-- JS_FLOAT64_TAG_ADDEND = 0x7ff80000 - JS_TAG_FIRST + 1 (quiet NaN encoding). -/
def JS_FLOAT64_TAG_ADDEND : Int := 0x7ff80000 - JS_TAG_FIRST + 1

/-- The uint64 value (uint64_t)JS_FLOAT64_TAG_ADDEND << 32 that the layout
adds to or subtracts from double bit patterns. -/
def addend64 : Nat := (u64 JS_FLOAT64_TAG_ADDEND <<< 32) % 18446744073709551616

/-- JS_VALUE_GET_FLOAT64: reinterpret v + (addend << 32) as a double
(returned here as its bit pattern), with uint64 wraparound. -/
def JS_VALUE_GET_FLOAT64 (v : Nat) : Nat := (v + addend64) % 18446744073709551616

/-- JS_NAN = 0x7ff8000000000000 - ((uint64_t)JS_FLOAT64_TAG_ADDEND << 32),
computed in uint64 arithmetic. -/
def JS_NAN : Nat := (0x7ff8000000000000 + 18446744073709551616 - addend64) % 18446744073709551616

/-- __JS_NewFloat64: canonicalize any NaN bit pattern to JS_NAN, otherwise
subtract the tag addend (uint64 wraparound). The argument is the double's
bit pattern. -/
def __JS_NewFloat64 (d : Nat) : Nat :=
  if f64_is_nan d then JS_NAN
  else (d + 18446744073709551616 - addend64) % 18446744073709551616

/-- __JS_NewShortBigInt(ctx, d) = JS_MKVAL(JS_TAG_SHORT_BIG_INT, d); the
context argument is unused in the source and dropped here. -/
def __JS_NewShortBigInt (d : Int) : Nat := JS_MKVAL JS_TAG_SHORT_BIG_INT d

/-- JS_TAG_IS_FLOAT64(tag) = (unsigned)((tag) - JS_TAG_FIRST) >= (JS_TAG_FLOAT64 - JS_TAG_FIRST). -/
def JS_TAG_IS_FLOAT64 (tag : Int) : Bool :=
  u32 (tag - JS_TAG_FIRST) ≥ (JS_TAG_FLOAT64 - JS_TAG_FIRST).toNat

/-- JS_VALUE_GET_NORM_TAG: same as JS_VALUE_GET_TAG, but returns
JS_TAG_FLOAT64 for every tag in the float range. The C body stores the tag
in a uint32_t before testing it. -/
def JS_VALUE_GET_NORM_TAG (v : Nat) : Int :=
  let tag : Nat := u32 (JS_VALUE_GET_TAG v)
  if JS_TAG_IS_FLOAT64 (tag : Int) then JS_TAG_FLOAT64 else i32 tag

/-- JS_VALUE_IS_NAN(v): the 32-bit tag word equals the high word of JS_NAN. -/
def JS_VALUE_IS_NAN (v : Nat) : Bool :=
  u32 (JS_VALUE_GET_TAG v) == JS_NAN >>> 32

/-- JS_VALUE_IS_BOTH_INT(v1, v2) = ((JS_VALUE_GET_TAG(v1) | JS_VALUE_GET_TAG(v2)) == 0). -/
def JS_VALUE_IS_BOTH_INT (v1 v2 : Nat) : Bool :=
  Int.lor (JS_VALUE_GET_TAG v1) (JS_VALUE_GET_TAG v2) == 0

/-- JS_VALUE_IS_BOTH_FLOAT(v1, v2). -/
def JS_VALUE_IS_BOTH_FLOAT (v1 v2 : Nat) : Bool :=
  JS_TAG_IS_FLOAT64 (JS_VALUE_GET_TAG v1) && JS_TAG_IS_FLOAT64 (JS_VALUE_GET_TAG v2)

/-- JS_VALUE_HAS_REF_COUNT(v) = ((unsigned)JS_VALUE_GET_TAG(v) >= (unsigned)JS_TAG_FIRST). -/
def JS_VALUE_HAS_REF_COUNT (v : Nat) : Bool :=
  u32 (JS_VALUE_GET_TAG v) ≥ u32 JS_TAG_FIRST

/-- JS_NewBool(ctx, val) = JS_MKVAL(JS_TAG_BOOL, (val != 0)). -/
def JS_NewBool (val : Bool) : Nat := JS_MKVAL JS_TAG_BOOL (if val then 1 else 0)

/-- JS_NewInt32(ctx, val) = JS_MKVAL(JS_TAG_INT, val). -/
def JS_NewInt32 (val : Int) : Nat := JS_MKVAL JS_TAG_INT val

/-- JS_NewFloat64(ctx, val) = __JS_NewFloat64(val). -/
def JS_NewFloat64 (val : Nat) : Nat := __JS_NewFloat64 val

/-- JS_NewCatchOffset(ctx, val) = JS_MKVAL(JS_TAG_CATCH_OFFSET, val). -/
def JS_NewCatchOffset (val : Int) : Nat := JS_MKVAL JS_TAG_CATCH_OFFSET val

/-- JS_NewInt64: inline integer when INT32_MIN <= val <= INT32_MAX, else a
float64 holding (double)val. -/
def JS_NewInt64 (val : Int) : Nat :=
  if -2147483648 ≤ val ∧ val ≤ 2147483647 then JS_NewInt32 (wrap32 val)
  else JS_NewFloat64 (i64ToF64 val)

/-- JS_NewUint32: inline integer when val <= INT32_MAX, else a float64
holding (double)val. -/
def JS_NewUint32 (val : Nat) : Nat :=
  if val ≤ 2147483647 then JS_NewInt32 (i32 val)
  else JS_NewFloat64 (natToF64bits val)

/-- JS_NULL = JS_MKVAL(JS_TAG_NULL, 0). -/
def JS_NULL : Nat := JS_MKVAL JS_TAG_NULL 0

/-- JS_UNDEFINED = JS_MKVAL(JS_TAG_UNDEFINED, 0). -/
def JS_UNDEFINED : Nat := JS_MKVAL JS_TAG_UNDEFINED 0

/-- JS_FALSE = JS_MKVAL(JS_TAG_BOOL, 0). -/
def JS_FALSE : Nat := JS_MKVAL JS_TAG_BOOL 0

/-- JS_TRUE = JS_MKVAL(JS_TAG_BOOL, 1). -/
def JS_TRUE : Nat := JS_MKVAL JS_TAG_BOOL 1

/-- JS_EXCEPTION = JS_MKVAL(JS_TAG_EXCEPTION, 0). -/
def JS_EXCEPTION : Nat := JS_MKVAL JS_TAG_EXCEPTION 0

/-- JS_UNINITIALIZED = JS_MKVAL(JS_TAG_UNINITIALIZED, 0). -/
def JS_UNINITIALIZED : Nat := JS_MKVAL JS_TAG_UNINITIALIZED 0

/-- JS_IsNumber(v): tag == JS_TAG_INT || JS_TAG_IS_FLOAT64(tag). -/
def JS_IsNumber (v : Nat) : Bool :=
  JS_VALUE_GET_TAG v == JS_TAG_INT || JS_TAG_IS_FLOAT64 (JS_VALUE_GET_TAG v)

/-- JS_IsBigInt(v): tag == JS_TAG_BIG_INT || tag == JS_TAG_SHORT_BIG_INT. -/
def JS_IsBigInt (v : Nat) : Bool :=
  JS_VALUE_GET_TAG v == JS_TAG_BIG_INT || JS_VALUE_GET_TAG v == JS_TAG_SHORT_BIG_INT

/-- JS_IsBool(v): tag == JS_TAG_BOOL. -/
def JS_IsBool (v : Nat) : Bool := JS_VALUE_GET_TAG v == JS_TAG_BOOL

/-- JS_IsNull(v): tag == JS_TAG_NULL. -/
def JS_IsNull (v : Nat) : Bool := JS_VALUE_GET_TAG v == JS_TAG_NULL

/-- JS_IsUndefined(v): tag == JS_TAG_UNDEFINED. -/
def JS_IsUndefined (v : Nat) : Bool := JS_VALUE_GET_TAG v == JS_TAG_UNDEFINED

/-- JS_IsException(v): tag == JS_TAG_EXCEPTION. -/
def JS_IsException (v : Nat) : Bool := JS_VALUE_GET_TAG v == JS_TAG_EXCEPTION

/-- JS_IsUninitialized(v): tag == JS_TAG_UNINITIALIZED. -/
def JS_IsUninitialized (v : Nat) : Bool := JS_VALUE_GET_TAG v == JS_TAG_UNINITIALIZED

end NB

namespace SV

/-! The default struct layout: a JSValue is a pair of an 8-byte payload
union (JSValueUnion, embedded as the raw 64-bit image of the stored member:
the low 32 bits hold int32 / short_big_int members, a stored double is its
full bit pattern) and an int64_t tag (embedded as an unbounded Int; the tag
is only ever read back through an int32_t cast). -/

structure JSValue where
  u : Nat
  tag : Int

/-- JS_VALUE_GET_TAG(v) = (int32_t)(v).tag. -/
def JS_VALUE_GET_TAG (v : JSValue) : Int := wrap32 v.tag

/-- JS_VALUE_GET_NORM_TAG is the same as JS_VALUE_GET_TAG in this layout. -/
def JS_VALUE_GET_NORM_TAG (v : JSValue) : Int := JS_VALUE_GET_TAG v

/-- JS_VALUE_GET_INT(v) = (v).u.int32: the low 32 bits of the union, signed. -/
def JS_VALUE_GET_INT (v : JSValue) : Int := i32 v.u

/-- JS_VALUE_GET_BOOL(v) = (v).u.int32. -/
def JS_VALUE_GET_BOOL (v : JSValue) : Int := i32 v.u

/-- JS_VALUE_GET_SHORT_BIG_INT(v) = (v).u.short_big_int. -/
def JS_VALUE_GET_SHORT_BIG_INT (v : JSValue) : Int := i32 v.u

/-- JS_VALUE_GET_FLOAT64(v) = (v).u.float64, returned as its bit pattern. -/
def JS_VALUE_GET_FLOAT64 (v : JSValue) : Nat := v.u

/-- JS_MKVAL(tag, val): store val in the int32 union member, keep the tag. -/
def JS_MKVAL (tag val : Int) : JSValue := ⟨u32 val, tag⟩

/-- JS_MKPTR(tag, p): store p in the pointer union member, keep the tag. -/
def JS_MKPTR (tag : Int) (ptr : Nat) : JSValue := ⟨ptr, tag⟩

/-- JS_NAN: u.float64 = NAN (the canonical quiet NaN 0x7ff8000000000000),
tag JS_TAG_FLOAT64. -/
def JS_NAN : JSValue := ⟨0x7ff8000000000000, JS_TAG_FLOAT64⟩

/-- JS_TAG_IS_FLOAT64(tag) = ((unsigned)(tag) == JS_TAG_FLOAT64). -/
def JS_TAG_IS_FLOAT64 (tag : Int) : Bool := u32 tag == (JS_TAG_FLOAT64).toNat

/-- __JS_NewFloat64(d): store the double unchanged with tag JS_TAG_FLOAT64.
No NaN canonicalization happens in this layout. -/
def __JS_NewFloat64 (d : Nat) : JSValue := ⟨d, JS_TAG_FLOAT64⟩

/-- __JS_NewShortBigInt(ctx, d): store d in the short_big_int member with
tag JS_TAG_SHORT_BIG_INT; the context argument is unused and dropped. -/
def __JS_NewShortBigInt (d : Int) : JSValue := ⟨u32 d, JS_TAG_SHORT_BIG_INT⟩

/-- JS_VALUE_IS_NAN(v): false unless the tag is JS_TAG_FLOAT64, else the
bit-pattern NaN test on the stored double. -/
def JS_VALUE_IS_NAN (v : JSValue) : Bool :=
  if v.tag ≠ JS_TAG_FLOAT64 then false else f64_is_nan v.u

/-- JS_VALUE_IS_BOTH_INT(v1, v2) = ((JS_VALUE_GET_TAG(v1) | JS_VALUE_GET_TAG(v2)) == 0). -/
def JS_VALUE_IS_BOTH_INT (v1 v2 : JSValue) : Bool :=
  Int.lor (JS_VALUE_GET_TAG v1) (JS_VALUE_GET_TAG v2) == 0

/-- JS_VALUE_IS_BOTH_FLOAT(v1, v2). -/
def JS_VALUE_IS_BOTH_FLOAT (v1 v2 : JSValue) : Bool :=
  JS_TAG_IS_FLOAT64 (JS_VALUE_GET_TAG v1) && JS_TAG_IS_FLOAT64 (JS_VALUE_GET_TAG v2)

/-- JS_VALUE_HAS_REF_COUNT(v) = ((unsigned)JS_VALUE_GET_TAG(v) >= (unsigned)JS_TAG_FIRST). -/
def JS_VALUE_HAS_REF_COUNT (v : JSValue) : Bool :=
  u32 (JS_VALUE_GET_TAG v) ≥ u32 JS_TAG_FIRST

/-- JS_NewBool(ctx, val) = JS_MKVAL(JS_TAG_BOOL, (val != 0)). -/
def JS_NewBool (val : Bool) : JSValue := JS_MKVAL JS_TAG_BOOL (if val then 1 else 0)

/-- JS_NewInt32(ctx, val) = JS_MKVAL(JS_TAG_INT, val). -/
def JS_NewInt32 (val : Int) : JSValue := JS_MKVAL JS_TAG_INT val

/-- JS_NewFloat64(ctx, val) = __JS_NewFloat64(val). -/
def JS_NewFloat64 (val : Nat) : JSValue := __JS_NewFloat64 val

/-- JS_NewCatchOffset(ctx, val) = JS_MKVAL(JS_TAG_CATCH_OFFSET, val). -/
def JS_NewCatchOffset (val : Int) : JSValue := JS_MKVAL JS_TAG_CATCH_OFFSET val

/-- JS_NewInt64: inline integer when INT32_MIN <= val <= INT32_MAX, else a
float64 holding (double)val. -/
def JS_NewInt64 (val : Int) : JSValue :=
  if -2147483648 ≤ val ∧ val ≤ 2147483647 then JS_NewInt32 (wrap32 val)
  else JS_NewFloat64 (i64ToF64 val)

/-- JS_NewUint32: inline integer when val <= INT32_MAX, else a float64
holding (double)val. -/
def JS_NewUint32 (val : Nat) : JSValue :=
  if val ≤ 2147483647 then JS_NewInt32 (i32 val)
  else JS_NewFloat64 (natToF64bits val)

/-- JS_NULL = JS_MKVAL(JS_TAG_NULL, 0). -/
def JS_NULL : JSValue := JS_MKVAL JS_TAG_NULL 0

/-- JS_UNDEFINED = JS_MKVAL(JS_TAG_UNDEFINED, 0). -/
def JS_UNDEFINED : JSValue := JS_MKVAL JS_TAG_UNDEFINED 0

/-- JS_FALSE = JS_MKVAL(JS_TAG_BOOL, 0). -/
def JS_FALSE : JSValue := JS_MKVAL JS_TAG_BOOL 0

/-- JS_TRUE = JS_MKVAL(JS_TAG_BOOL, 1). -/
def JS_TRUE : JSValue := JS_MKVAL JS_TAG_BOOL 1

/-- JS_EXCEPTION = JS_MKVAL(JS_TAG_EXCEPTION, 0). -/
def JS_EXCEPTION : JSValue := JS_MKVAL JS_TAG_EXCEPTION 0

/-- JS_UNINITIALIZED = JS_MKVAL(JS_TAG_UNINITIALIZED, 0). -/
def JS_UNINITIALIZED : JSValue := JS_MKVAL JS_TAG_UNINITIALIZED 0

/-- JS_IsNumber(v): tag == JS_TAG_INT || JS_TAG_IS_FLOAT64(tag). -/
def JS_IsNumber (v : JSValue) : Bool :=
  JS_VALUE_GET_TAG v == JS_TAG_INT || JS_TAG_IS_FLOAT64 (JS_VALUE_GET_TAG v)

/-- JS_IsBigInt(v): tag == JS_TAG_BIG_INT || tag == JS_TAG_SHORT_BIG_INT. -/
def JS_IsBigInt (v : JSValue) : Bool :=
  JS_VALUE_GET_TAG v == JS_TAG_BIG_INT || JS_VALUE_GET_TAG v == JS_TAG_SHORT_BIG_INT

/-- JS_IsBool(v): tag == JS_TAG_BOOL. -/
def JS_IsBool (v : JSValue) : Bool := JS_VALUE_GET_TAG v == JS_TAG_BOOL

/-- JS_IsNull(v): tag == JS_TAG_NULL. -/
def JS_IsNull (v : JSValue) : Bool := JS_VALUE_GET_TAG v == JS_TAG_NULL

/-- JS_IsUndefined(v): tag == JS_TAG_UNDEFINED. -/
def JS_IsUndefined (v : JSValue) : Bool := JS_VALUE_GET_TAG v == JS_TAG_UNDEFINED

/-- JS_IsException(v): tag == JS_TAG_EXCEPTION. -/
def JS_IsException (v : JSValue) : Bool := JS_VALUE_GET_TAG v == JS_TAG_EXCEPTION

/-- JS_IsUninitialized(v): tag == JS_TAG_UNINITIALIZED. -/
def JS_IsUninitialized (v : JSValue) : Bool := JS_VALUE_GET_TAG v == JS_TAG_UNINITIALIZED

end SV

namespace CK

/-! The JS_CHECK_JSVALUE layout: `typedef struct JSValue *JSValue;`, a
pointer-sized handle (64-bit intptr_t here, embedded as an Int: tags and
int32 payloads never overflow 64 bits in these macros, so no explicit
wrap is needed). The header states this build mode does not produce
working code; it exists to catch reference-counting bugs at compile time. -/

/-- JS_MKVAL(tag, val) = (JSValue)((tag) | (intptr_t)(val) << 4): bitwise
OR of the 64-bit two's-complement images, read back as a signed handle. -/
def JS_MKVAL (tag val : Int) : Int := i64 (u64 tag ||| u64 (val * 16))

/-- JS_VALUE_GET_NORM_TAG(v) = (int)((intptr_t)(v) & 15): the low 4 bits
of the two's-complement image. -/
def JS_VALUE_GET_NORM_TAG (v : Int) : Int := (u64 v &&& 15 : Nat)

/-- JS_VALUE_GET_TAG(v) = (int)((intptr_t)(v) & 15). -/
def JS_VALUE_GET_TAG (v : Int) : Int := (u64 v &&& 15 : Nat)

/-- JS_VALUE_GET_INT(v) = (int)((intptr_t)(v) >> 4): arithmetic right
shift by 4 (floor division by 16), then truncation to int. -/
def JS_VALUE_GET_INT (v : Int) : Int := wrap32 (Int.fdiv v 16)

/-- JS_VALUE_GET_BOOL(v) = (int)((intptr_t)(v) >> 4). -/
def JS_VALUE_GET_BOOL (v : Int) : Int := wrap32 (Int.fdiv v 16)

/-- JS_VALUE_GET_SHORT_BIG_INT(v) is JS_VALUE_GET_INT(v) in this layout. -/
def JS_VALUE_GET_SHORT_BIG_INT (v : Int) : Int := wrap32 (Int.fdiv v 16)

end CK

/-! Arithmetic helper lemmas about the embedded casts and the NaN-boxed
bit manipulations. -/

theorem u32_lt (x : Int) : u32 x < 4294967296 := by
  unfold u32; omega

theorem f64_is_nan_iff (b : Nat) :
    f64_is_nan b = true ↔ b % 9223372036854775808 > 9218868437227405312 := by
  unfold f64_is_nan
  have h : b &&& 0x7fffffffffffffff = b % 9223372036854775808 := by
    have := Nat.and_pow_two_sub_one_eq_mod b 63
    norm_num at this
    exact this
  rw [h]
  simp

theorem nb_mkval_eq (tag val : Int) :
    NB.JS_MKVAL tag val = u32 tag * 4294967296 + u32 val := by
  have h1 : u32 val < 2 ^ 32 := by have := u32_lt val; omega
  have h2 : (u64 tag <<< 32) % 18446744073709551616 = 2 ^ 32 * u32 tag := by
    rw [Nat.shiftLeft_eq]
    unfold u64 u32
    omega
  unfold NB.JS_MKVAL
  rw [h2, ← Nat.mul_add_lt_is_or h1 (u32 tag)]
  ring

theorem nb_mkptr_eq (tag : Int) (ptr : Nat) :
    NB.JS_MKPTR tag ptr = u32 tag * 4294967296 + ptr % 4294967296 := by
  have h1 : ptr % 4294967296 < 2 ^ 32 := by omega
  have h2 : (u64 tag <<< 32) % 18446744073709551616 = 2 ^ 32 * u32 tag := by
    rw [Nat.shiftLeft_eq]
    unfold u64 u32
    omega
  unfold NB.JS_MKPTR
  rw [h2, ← Nat.mul_add_lt_is_or h1 (u32 tag)]
  ring

theorem nb_get_tag_mkval (tag val : Int) :
    NB.JS_VALUE_GET_TAG (NB.JS_MKVAL tag val) = wrap32 tag := by
  rw [NB.JS_VALUE_GET_TAG, nb_mkval_eq, Nat.shiftRight_eq_div_pow]
  have h1 : u32 val < 4294967296 := u32_lt val
  have h2 : (u32 tag * 4294967296 + u32 val) / 2 ^ 32 = u32 tag := by omega
  rw [h2]
  unfold u32 i32 wrap32
  omega

theorem nb_get_tag_mkptr (tag : Int) (ptr : Nat) :
    NB.JS_VALUE_GET_TAG (NB.JS_MKPTR tag ptr) = wrap32 tag := by
  rw [NB.JS_VALUE_GET_TAG, nb_mkptr_eq, Nat.shiftRight_eq_div_pow]
  have h2 : (u32 tag * 4294967296 + ptr % 4294967296) / 2 ^ 32 = u32 tag := by omega
  rw [h2]
  unfold u32 i32 wrap32
  omega

theorem nb_get_int_mkval (tag val : Int) :
    NB.JS_VALUE_GET_INT (NB.JS_MKVAL tag val) = wrap32 val := by
  rw [NB.JS_VALUE_GET_INT, nb_mkval_eq]
  unfold u32 i32 wrap32
  omega

theorem sv_get_tag_mkval (tag val : Int) :
    SV.JS_VALUE_GET_TAG (SV.JS_MKVAL tag val) = wrap32 tag := rfl

theorem sv_get_int_mkval (tag val : Int) :
    SV.JS_VALUE_GET_INT (SV.JS_MKVAL tag val) = wrap32 val := by
  show i32 (u32 val) = wrap32 val
  unfold u32 i32 wrap32
  omega

theorem wrap32_small {x : Int} (h1 : -2147483648 ≤ x) (h2 : x ≤ 2147483647) :
    wrap32 x = x := by
  unfold wrap32
  omega

/-- The 32-bit tag word of every value built by the NaN-boxed
__JS_NewFloat64 lies strictly between 8 and (unsigned)JS_TAG_FIRST =
0xfffffff7; it equals 0xfffffff6 (the JS_NAN tag word) exactly when the
encoded double was a NaN. -/
theorem nb_newfloat_tag_bounds (d : Nat) (hd : d < 18446744073709551616) :
    8 < NB.__JS_NewFloat64 d >>> 32 ∧ NB.__JS_NewFloat64 d >>> 32 < 4294967287 ∧
    (NB.__JS_NewFloat64 d >>> 32 = 4294967286 ↔ f64_is_nan d = true) := by
  have ha : NB.addend64 = 0x7ff8000a00000000 := by decide
  have hpow : (2 : Nat) ^ 32 = 4294967296 := by norm_num
  unfold NB.__JS_NewFloat64
  by_cases hn : f64_is_nan d = true
  · rw [if_pos hn]
    refine ⟨by decide, by decide, ?_⟩
    rw [hn]
    simp only [iff_true]
    decide
  · rw [if_neg hn]
    have hm : ¬ (d % 9223372036854775808 > 9218868437227405312) := by
      intro hgt
      rw [← f64_is_nan_iff] at hgt
      exact hn hgt
    rw [ha, Nat.shiftRight_eq_div_pow, hpow]
    refine ⟨by omega, by omega, ?_⟩
    constructor
    · intro h
      exfalso
      omega
    · intro h
      exact absurd h hn

theorem nat_lor_eq_zero_iff (m n : Nat) : (m ||| n) = 0 ↔ m = 0 ∧ n = 0 := by
  constructor
  · intro h
    have hb : ∀ i, m.testBit i = false ∧ n.testBit i = false := by
      intro i
      have h2 := congrArg (fun x => Nat.testBit x i) h
      simp only [Nat.testBit_or, Nat.zero_testBit] at h2
      exact ⟨(Bool.or_eq_false_iff.mp h2).1, (Bool.or_eq_false_iff.mp h2).2⟩
    constructor
    · exact Nat.eq_of_testBit_eq fun i => by simp [(hb i).1]
    · exact Nat.eq_of_testBit_eq fun i => by simp [(hb i).2]
  · rintro ⟨rfl, rfl⟩
    rfl

theorem int_lor_eq_zero_iff (a b : Int) : Int.lor a b = 0 ↔ a = 0 ∧ b = 0 := by
  cases a with
  | ofNat m =>
    cases b with
    | ofNat n =>
      show ((m ||| n : Nat) : Int) = 0 ↔ _
      rw [Int.ofNat_eq_zero, nat_lor_eq_zero_iff]
      simp [Int.ofNat_eq_zero]
    | negSucc n =>
      show Int.negSucc (Nat.ldiff n m) = 0 ↔ _
      simp
  | negSucc m =>
    cases b with
    | ofNat n =>
      show Int.negSucc (Nat.ldiff m n) = 0 ↔ _
      simp
    | negSucc n =>
      show Int.negSucc (m &&& n) = 0 ↔ _
      simp

/-- Every value built by the NaN-boxed __JS_NewFloat64 classifies as a
float: its tag satisfies JS_TAG_IS_FLOAT64. -/
theorem nb_newfloat_is_float64 (d : Nat) (hd : d < 18446744073709551616) :
    NB.JS_TAG_IS_FLOAT64 (NB.JS_VALUE_GET_TAG (NB.__JS_NewFloat64 d)) = true := by
  obtain ⟨h8, hT, hnan⟩ := nb_newfloat_tag_bounds d hd
  unfold NB.JS_TAG_IS_FLOAT64 NB.JS_VALUE_GET_TAG
  generalize hg : NB.__JS_NewFloat64 d >>> 32 = T at h8 hT hnan
  unfold JS_TAG_FIRST JS_TAG_FLOAT64 u32 i32 wrap32
  simp only [decide_eq_true_eq]
  omega

/-- Every value built by the NaN-boxed __JS_NewFloat64 has normalized tag
JS_TAG_FLOAT64. -/
theorem nb_newfloat_norm_tag (d : Nat) (hd : d < 18446744073709551616) :
    NB.JS_VALUE_GET_NORM_TAG (NB.__JS_NewFloat64 d) = JS_TAG_FLOAT64 := by
  obtain ⟨h8, hT, hnan⟩ := nb_newfloat_tag_bounds d hd
  unfold NB.JS_VALUE_GET_NORM_TAG NB.JS_VALUE_GET_TAG
  generalize hg : NB.__JS_NewFloat64 d >>> 32 = T at h8 hT hnan
  have hfl : NB.JS_TAG_IS_FLOAT64 ((u32 (i32 T) : Nat) : Int) = true := by
    unfold NB.JS_TAG_IS_FLOAT64 JS_TAG_FIRST JS_TAG_FLOAT64 u32 i32 wrap32
    simp only [decide_eq_true_eq]
    omega
  simp only [hfl, if_pos]

/-- No value built by the NaN-boxed __JS_NewFloat64 counts as reference
counted, and its raw tag avoids the whole enumerated range [-9, 8]. -/
theorem nb_newfloat_not_ref (d : Nat) (hd : d < 18446744073709551616) :
    NB.JS_VALUE_HAS_REF_COUNT (NB.__JS_NewFloat64 d) = false ∧
    (∀ s : Int, -9 ≤ s → s ≤ 8 → NB.JS_VALUE_GET_TAG (NB.__JS_NewFloat64 d) ≠ s) := by
  obtain ⟨h8, hT, hnan⟩ := nb_newfloat_tag_bounds d hd
  unfold NB.JS_VALUE_HAS_REF_COUNT NB.JS_VALUE_GET_TAG
  generalize hg : NB.__JS_NewFloat64 d >>> 32 = T at h8 hT hnan
  constructor
  · unfold JS_TAG_FIRST u32 i32 wrap32
    simp only [decide_eq_false_iff_not]
    omega
  · intro s hs1 hs2
    unfold i32 wrap32
    omega

/-- The NaN-boxed JS_VALUE_IS_NAN test agrees with the bit-pattern NaN
test of the double that was encoded. -/
theorem nb_newfloat_is_nan (d : Nat) (hd : d < 18446744073709551616) :
    NB.JS_VALUE_IS_NAN (NB.__JS_NewFloat64 d) = f64_is_nan d := by
  obtain ⟨h8, hT, hnan⟩ := nb_newfloat_tag_bounds d hd
  have hjn : NB.JS_NAN >>> 32 = 4294967286 := by decide
  unfold NB.JS_VALUE_IS_NAN NB.JS_VALUE_GET_TAG
  rw [hjn]
  generalize hg : NB.__JS_NewFloat64 d >>> 32 = T at h8 hT hnan
  rcases hna : f64_is_nan d with _ | _
  · simp only [beq_eq_false_iff_ne, ne_eq]
    unfold u32 i32 wrap32
    rw [hna] at hnan
    simp only [Bool.false_eq_true, iff_false] at hnan
    omega
  · rw [hna] at hnan
    simp only [iff_true] at hnan
    simp only [beq_iff_eq]
    unfold u32 i32 wrap32
    omega

/-! Claim theorems. -/

/-- C1: for every enumerated tag and any payload (both the integer-payload
constructor JS_MKVAL and the pointer-payload constructor JS_MKPTR, in both
runnable layouts), JS_VALUE_HAS_REF_COUNT holds of the constructed value
iff the tag is one of the six reference-counted tags; and every
reference-counted tag is numerically below every non-reference-counted
tag, the single unsigned comparison against JS_TAG_FIRST being exactly the
class test. -/
theorem C1_refcount_iff_refcounted_tag :
    (∀ tag ∈ jsEnumTags, ∀ val : Int, ∀ ptr : Nat,
      (SV.JS_VALUE_HAS_REF_COUNT (SV.JS_MKVAL tag val) = true ↔ tag ∈ jsRefCountedTags) ∧
      (SV.JS_VALUE_HAS_REF_COUNT (SV.JS_MKPTR tag ptr) = true ↔ tag ∈ jsRefCountedTags) ∧
      (NB.JS_VALUE_HAS_REF_COUNT (NB.JS_MKVAL tag val) = true ↔ tag ∈ jsRefCountedTags) ∧
      (NB.JS_VALUE_HAS_REF_COUNT (NB.JS_MKPTR tag ptr) = true ↔ tag ∈ jsRefCountedTags)) ∧
    (∀ r ∈ jsRefCountedTags, ∀ t ∈ jsInlineTags, r < t) := by
  constructor
  · intro tag htag val ptr
    have hall : ∀ s ∈ jsEnumTags,
        ((u32 (wrap32 s) ≥ u32 JS_TAG_FIRST) ↔ s ∈ jsRefCountedTags) := by decide
    have hcore := hall tag htag
    have h1 : SV.JS_VALUE_GET_TAG (SV.JS_MKVAL tag val) = wrap32 tag := rfl
    have h2 : SV.JS_VALUE_GET_TAG (SV.JS_MKPTR tag ptr) = wrap32 tag := rfl
    refine ⟨?_, ?_, ?_, ?_⟩
    · unfold SV.JS_VALUE_HAS_REF_COUNT
      rw [h1]
      simp only [decide_eq_true_eq]
      exact hcore
    · unfold SV.JS_VALUE_HAS_REF_COUNT
      rw [h2]
      simp only [decide_eq_true_eq]
      exact hcore
    · unfold NB.JS_VALUE_HAS_REF_COUNT
      rw [nb_get_tag_mkval]
      simp only [decide_eq_true_eq]
      exact hcore
    · unfold NB.JS_VALUE_HAS_REF_COUNT
      rw [nb_get_tag_mkptr]
      simp only [decide_eq_true_eq]
      exact hcore
  · decide

/-- C1 witness: concrete instance at tag JS_TAG_OBJECT with payload 0. -/
theorem C1_witness :
    NB.JS_VALUE_HAS_REF_COUNT (NB.JS_MKVAL JS_TAG_OBJECT 0) = true :=
  ((C1_refcount_iff_refcounted_tag.1 JS_TAG_OBJECT (by decide) 0 0).2.2.1).mpr (by decide)

/-- C2: under NaN boxing, every double bit pattern whose absolute value
exceeds the quiet-NaN threshold encodes to the single value JS_NAN, so any
two NaN bit patterns encode bit-identically. -/
theorem C2_nan_canonicalization (d1 d2 : Nat)
    (h1 : d1 &&& 0x7fffffffffffffff > 0x7ff0000000000000)
    (h2 : d2 &&& 0x7fffffffffffffff > 0x7ff0000000000000) :
    NB.__JS_NewFloat64 d1 = NB.JS_NAN ∧ NB.__JS_NewFloat64 d1 = NB.__JS_NewFloat64 d2 := by
  have hb1 : f64_is_nan d1 = true := by unfold f64_is_nan; exact decide_eq_true h1
  have hb2 : f64_is_nan d2 = true := by unfold f64_is_nan; exact decide_eq_true h2
  unfold NB.__JS_NewFloat64
  rw [if_pos hb1, if_pos hb2]
  exact ⟨rfl, rfl⟩

/-- C2 witness: two distinct concrete NaN bit patterns both encode to JS_NAN. -/
theorem C2_witness :
    NB.__JS_NewFloat64 0x7ff8000000000001 = NB.JS_NAN ∧
    NB.__JS_NewFloat64 0x7ff8000000000001 = NB.__JS_NewFloat64 0xfff0000000000123 :=
  C2_nan_canonicalization 0x7ff8000000000001 0xfff0000000000123
    (by rw [show (0x7fffffffffffffff : Nat) = 2 ^ 63 - 1 by norm_num,
          Nat.and_pow_two_sub_one_eq_mod]
        norm_num)
    (by rw [show (0x7fffffffffffffff : Nat) = 2 ^ 63 - 1 by norm_num,
          Nat.and_pow_two_sub_one_eq_mod]
        norm_num)

/-- C3: under NaN boxing, every encoded double decodes as a float:
JS_TAG_IS_FLOAT64 holds of its tag, JS_VALUE_GET_NORM_TAG returns
JS_TAG_FLOAT64, JS_VALUE_HAS_REF_COUNT is false of it, and its tag differs
from every enumerated (reference-counted or inline) tag. -/
theorem C3_newfloat_decodes_as_float (d : Nat) (hd : d < 18446744073709551616) :
    NB.JS_TAG_IS_FLOAT64 (NB.JS_VALUE_GET_TAG (NB.__JS_NewFloat64 d)) = true ∧
    NB.JS_VALUE_GET_NORM_TAG (NB.__JS_NewFloat64 d) = JS_TAG_FLOAT64 ∧
    NB.JS_VALUE_HAS_REF_COUNT (NB.__JS_NewFloat64 d) = false ∧
    (∀ s ∈ jsEnumTags, NB.JS_VALUE_GET_TAG (NB.__JS_NewFloat64 d) ≠ s) := by
  have hb : ∀ s ∈ jsEnumTags, -9 ≤ s ∧ s ≤ 8 := by decide
  exact ⟨nb_newfloat_is_float64 d hd, nb_newfloat_norm_tag d hd,
    (nb_newfloat_not_ref d hd).1,
    fun s hs => (nb_newfloat_not_ref d hd).2 s (hb s hs).1 (hb s hs).2⟩

/-- C3 witness: the bit pattern of 1.0 decodes with normalized tag
JS_TAG_FLOAT64. -/
theorem C3_witness :
    NB.JS_VALUE_GET_NORM_TAG (NB.__JS_NewFloat64 0x3ff0000000000000) = JS_TAG_FLOAT64 :=
  (C3_newfloat_decodes_as_float 0x3ff0000000000000 (by decide)).2.1

/-- C6: the NaN-boxed float-classification macro JS_TAG_IS_FLOAT64 accepts
exactly the float64 tag (tag congruent to 8 mod 2^32, unsigned distance
from JS_TAG_FIRST exactly 17) together with every tag whose unsigned
distance from JS_TAG_FIRST exceeds that threshold, where the threshold
17 = JS_TAG_FLOAT64 - JS_TAG_FIRST counts the tag values below the float64
tag; on the enumerated tags JS_TAG_BIG_INT .. JS_TAG_SHORT_BIG_INT it
returns false and on JS_TAG_FLOAT64 it returns true. -/
theorem C6_tag_is_float64_characterization :
    (∀ t : Int, NB.JS_TAG_IS_FLOAT64 t = true ↔
      (u32 t = (JS_TAG_FLOAT64).toNat ∨
       u32 (t - JS_TAG_FIRST) > (JS_TAG_FLOAT64 - JS_TAG_FIRST).toNat)) ∧
    (JS_TAG_FLOAT64 - JS_TAG_FIRST).toNat = 17 ∧
    (∀ s ∈ jsNonFloatTags, NB.JS_TAG_IS_FLOAT64 s = false) ∧
    NB.JS_TAG_IS_FLOAT64 JS_TAG_FLOAT64 = true := by
  refine ⟨?_, by decide, by decide, by decide⟩
  intro t
  unfold NB.JS_TAG_IS_FLOAT64 JS_TAG_FIRST JS_TAG_FLOAT64 u32
  simp only [decide_eq_true_eq]
  omega

/-- C6 witness: the short-big-int tag is not classified as float. -/
theorem C6_witness : NB.JS_TAG_IS_FLOAT64 JS_TAG_SHORT_BIG_INT = false :=
  C6_tag_is_float64_characterization.2.2.1 JS_TAG_SHORT_BIG_INT (by decide)

/-- C9: in both runnable layouts, JS_VALUE_IS_NAN of JS_NewFloat64(d)
agrees with the bit-pattern NaN test of d; and under NaN boxing the test
is literally the comparison of the 32-bit tag word with the high word of
JS_NAN. -/
theorem C9_is_nan_agrees (d : Nat) (hd : d < 18446744073709551616) :
    NB.JS_VALUE_IS_NAN (NB.JS_NewFloat64 d) = f64_is_nan d ∧
    SV.JS_VALUE_IS_NAN (SV.JS_NewFloat64 d) = f64_is_nan d ∧
    (∀ v : Nat, NB.JS_VALUE_IS_NAN v = (u32 (NB.JS_VALUE_GET_TAG v) == NB.JS_NAN >>> 32)) := by
  refine ⟨nb_newfloat_is_nan d hd, ?_, fun v => rfl⟩
  unfold SV.JS_VALUE_IS_NAN SV.JS_NewFloat64 SV.__JS_NewFloat64
  rw [if_neg (fun hk : (SV.JSValue.mk d JS_TAG_FLOAT64).tag ≠ JS_TAG_FLOAT64 => hk rfl)]

/-- C9 witness: concrete instance at the bit pattern of 1.5 (not a NaN). -/
theorem C9_witness :
    SV.JS_VALUE_IS_NAN (SV.JS_NewFloat64 0x3ff8000000000000) = f64_is_nan 0x3ff8000000000000 :=
  (C9_is_nan_agrees 0x3ff8000000000000 (by decide)).2.1

/-- C10: the pairwise fast-path classifiers are exact in both runnable
layouts: JS_VALUE_IS_BOTH_INT holds iff both tags equal JS_TAG_INT (the
bitwise OR of the tags being zero is equivalent to both being zero), and
JS_VALUE_IS_BOTH_FLOAT holds iff JS_TAG_IS_FLOAT64 holds of both tags. -/
theorem C10_both_int_both_float_exact :
    (∀ v1 v2 : Nat,
      (NB.JS_VALUE_IS_BOTH_INT v1 v2 = true ↔
        NB.JS_VALUE_GET_TAG v1 = JS_TAG_INT ∧ NB.JS_VALUE_GET_TAG v2 = JS_TAG_INT) ∧
      (NB.JS_VALUE_IS_BOTH_FLOAT v1 v2 = true ↔
        NB.JS_TAG_IS_FLOAT64 (NB.JS_VALUE_GET_TAG v1) = true ∧
        NB.JS_TAG_IS_FLOAT64 (NB.JS_VALUE_GET_TAG v2) = true)) ∧
    (∀ w1 w2 : SV.JSValue,
      (SV.JS_VALUE_IS_BOTH_INT w1 w2 = true ↔
        SV.JS_VALUE_GET_TAG w1 = JS_TAG_INT ∧ SV.JS_VALUE_GET_TAG w2 = JS_TAG_INT) ∧
      (SV.JS_VALUE_IS_BOTH_FLOAT w1 w2 = true ↔
        SV.JS_TAG_IS_FLOAT64 (SV.JS_VALUE_GET_TAG w1) = true ∧
        SV.JS_TAG_IS_FLOAT64 (SV.JS_VALUE_GET_TAG w2) = true)) := by
  constructor
  · intro v1 v2
    constructor
    · unfold NB.JS_VALUE_IS_BOTH_INT JS_TAG_INT
      simp only [beq_iff_eq]
      exact int_lor_eq_zero_iff _ _
    · unfold NB.JS_VALUE_IS_BOTH_FLOAT
      exact iff_of_eq (Bool.and_eq_true _ _)
  · intro w1 w2
    constructor
    · unfold SV.JS_VALUE_IS_BOTH_INT JS_TAG_INT
      simp only [beq_iff_eq]
      exact int_lor_eq_zero_iff _ _
    · unfold SV.JS_VALUE_IS_BOTH_FLOAT
      exact iff_of_eq (Bool.and_eq_true _ _)

theorem u32_wrap32 (x : Int) : u32 (wrap32 x) = u32 x := by
  unfold u32 wrap32
  omega

theorem jsNonFloatTags_bounds : ∀ s ∈ jsNonFloatTags, -9 ≤ s ∧ s ≤ 7 := by decide

/-- Decoding a non-NaN double encoded by the NaN-boxed __JS_NewFloat64
returns the same bit pattern. -/
theorem nb_getfloat_newfloat_nonnan (d : Nat) (hd : d < 18446744073709551616)
    (hn : f64_is_nan d = false) :
    NB.JS_VALUE_GET_FLOAT64 (NB.__JS_NewFloat64 d) = d := by
  have ha : NB.addend64 = 0x7ff8000a00000000 := by decide
  unfold NB.__JS_NewFloat64
  rw [if_neg (by simp [hn])]
  unfold NB.JS_VALUE_GET_FLOAT64
  rw [ha]
  omega

/-- Decoding a NaN double encoded by the NaN-boxed __JS_NewFloat64 returns
the canonical quiet NaN 0x7ff8000000000000. -/
theorem nb_getfloat_newfloat_nan (d : Nat) (hn : f64_is_nan d = true) :
    NB.JS_VALUE_GET_FLOAT64 (NB.__JS_NewFloat64 d) = 0x7ff8000000000000 := by
  have ha : NB.addend64 = 0x7ff8000a00000000 := by decide
  have hjn : NB.JS_NAN = 0xfffffff600000000 := by decide
  unfold NB.__JS_NewFloat64
  rw [if_pos hn]
  unfold NB.JS_VALUE_GET_FLOAT64
  rw [hjn, ha]

/-- C4 counterexample: the claim asserts that in each runnable layout every
NaN double decodes to the one canonical NaN representation; but in the
struct layout __JS_NewFloat64 stores the NaN payload unchanged, so the NaN
0x7ff8000000000001 and the canonical NaN 0x7ff8000000000000 decode to
different bit patterns. -/
theorem C4_counterexample :
    f64_is_nan 0x7ff8000000000001 = true ∧
    f64_is_nan 0x7ff8000000000000 = true ∧
    SV.JS_VALUE_GET_FLOAT64 (SV.__JS_NewFloat64 0x7ff8000000000001) = 0x7ff8000000000001 ∧
    SV.JS_VALUE_GET_FLOAT64 (SV.__JS_NewFloat64 0x7ff8000000000000) = 0x7ff8000000000000 ∧
    SV.JS_VALUE_GET_FLOAT64 (SV.__JS_NewFloat64 0x7ff8000000000001) ≠
      SV.JS_VALUE_GET_FLOAT64 (SV.__JS_NewFloat64 0x7ff8000000000000) := by
  refine ⟨?_, ?_, rfl, rfl, by decide⟩
  · rw [f64_is_nan_iff]
    norm_num
  · rw [f64_is_nan_iff]
    norm_num

/-- C4 amended: in each runnable layout separately, JS_MKVAL round-trips
every enumerated non-float tag with every 32-bit payload through
JS_VALUE_GET_TAG and the matching payload accessor; for doubles, the
NaN-boxed layout round-trips every non-NaN bit pattern and decodes every
NaN to the canonical quiet NaN, while the struct layout round-trips every
double bit-identically, NaN payloads included (it does not canonicalize). -/
theorem C4_roundtrip_amended :
    (∀ tag ∈ jsNonFloatTags, ∀ val : Int, -2147483648 ≤ val → val ≤ 2147483647 →
      (SV.JS_VALUE_GET_TAG (SV.JS_MKVAL tag val) = tag ∧
       SV.JS_VALUE_GET_INT (SV.JS_MKVAL tag val) = val ∧
       SV.JS_VALUE_GET_BOOL (SV.JS_MKVAL tag val) = val ∧
       SV.JS_VALUE_GET_SHORT_BIG_INT (SV.JS_MKVAL tag val) = val) ∧
      (NB.JS_VALUE_GET_TAG (NB.JS_MKVAL tag val) = tag ∧
       NB.JS_VALUE_GET_INT (NB.JS_MKVAL tag val) = val ∧
       NB.JS_VALUE_GET_BOOL (NB.JS_MKVAL tag val) = val ∧
       NB.JS_VALUE_GET_SHORT_BIG_INT (NB.JS_MKVAL tag val) = val)) ∧
    (∀ d : Nat, d < 18446744073709551616 →
      SV.JS_VALUE_GET_FLOAT64 (SV.__JS_NewFloat64 d) = d) ∧
    (∀ d : Nat, d < 18446744073709551616 → f64_is_nan d = false →
      NB.JS_VALUE_GET_FLOAT64 (NB.__JS_NewFloat64 d) = d) ∧
    (∀ d : Nat, f64_is_nan d = true →
      NB.JS_VALUE_GET_FLOAT64 (NB.__JS_NewFloat64 d) = 0x7ff8000000000000) := by
  refine ⟨?_, fun d hd => rfl, nb_getfloat_newfloat_nonnan, nb_getfloat_newfloat_nan⟩
  intro tag htag val hv1 hv2
  obtain ⟨ht1, ht2⟩ := jsNonFloatTags_bounds tag htag
  have hwt : wrap32 tag = tag := wrap32_small (by omega) (by omega)
  have hwv : wrap32 val = val := wrap32_small hv1 hv2
  have hsvp : i32 (u32 val) = wrap32 val := by
    unfold i32 u32 wrap32
    omega
  refine ⟨⟨?_, ?_, ?_, ?_⟩, ?_, ?_, ?_, ?_⟩
  · rw [sv_get_tag_mkval, hwt]
  · rw [sv_get_int_mkval, hwv]
  · show i32 (u32 val) = val
    rw [hsvp, hwv]
  · show i32 (u32 val) = val
    rw [hsvp, hwv]
  · rw [nb_get_tag_mkval, hwt]
  · rw [nb_get_int_mkval, hwv]
  · show NB.JS_VALUE_GET_INT (NB.JS_MKVAL tag val) = val
    rw [nb_get_int_mkval, hwv]
  · show NB.JS_VALUE_GET_INT (NB.JS_MKVAL tag val) = val
    rw [nb_get_int_mkval, hwv]

/-- C4 witness: concrete round trip at tag JS_TAG_INT, payload -5, and the
canonical NaN decode of a NaN payload under NaN boxing. -/
theorem C4_witness :
    NB.JS_VALUE_GET_INT (NB.JS_MKVAL JS_TAG_INT (-5)) = -5 ∧
    NB.JS_VALUE_GET_FLOAT64 (NB.__JS_NewFloat64 0xfff0000000000123) = 0x7ff8000000000000 :=
  ⟨((C4_roundtrip_amended.1 JS_TAG_INT (by decide) (-5) (by decide) (by decide)).2).2.1,
   C4_roundtrip_amended.2.2.2 0xfff0000000000123
     (by rw [f64_is_nan_iff]; norm_num)⟩

/-- NaN-boxed NORM_TAG of a JS_MKVAL with a tag in the enumerated
non-float range is that tag unchanged. -/
theorem nb_norm_tag_mkval (tag val : Int) (h1 : -9 ≤ tag) (h2 : tag ≤ 7) :
    NB.JS_VALUE_GET_NORM_TAG (NB.JS_MKVAL tag val) = tag := by
  unfold NB.JS_VALUE_GET_NORM_TAG
  rw [nb_get_tag_mkval, wrap32_small (by omega) (by omega)]
  have hfl : NB.JS_TAG_IS_FLOAT64 ((u32 tag : Nat) : Int) = false := by
    unfold NB.JS_TAG_IS_FLOAT64 JS_TAG_FIRST JS_TAG_FLOAT64 u32
    simp only [decide_eq_false_iff_not]
    omega
  simp only [hfl, Bool.false_eq_true, if_false]
  unfold i32 u32 wrap32
  omega

/-- C5 counterexample: the claim asserts that decoding agrees between any
two of the three encodings; but in the checked (JS_CHECK_JSVALUE) layout
JS_MKVAL ORs the negative tag into the handle, so for JS_TAG_BIG_INT the
normalized tag decodes as 7 and the payload is lost, disagreeing with both
runnable layouts. -/
theorem C5_counterexample :
    CK.JS_VALUE_GET_NORM_TAG (CK.JS_MKVAL JS_TAG_BIG_INT 0) = 7 ∧
    SV.JS_VALUE_GET_NORM_TAG (SV.JS_MKVAL JS_TAG_BIG_INT 0) = JS_TAG_BIG_INT ∧
    NB.JS_VALUE_GET_NORM_TAG (NB.JS_MKVAL JS_TAG_BIG_INT 0) = JS_TAG_BIG_INT ∧
    ((7 : Int) ≠ JS_TAG_BIG_INT) ∧
    CK.JS_VALUE_GET_INT (CK.JS_MKVAL JS_TAG_BIG_INT 5) = -1 ∧
    SV.JS_VALUE_GET_INT (SV.JS_MKVAL JS_TAG_BIG_INT 5) = 5 :=
  ⟨by decide, by decide, nb_norm_tag_mkval JS_TAG_BIG_INT 0 (by decide) (by decide),
   by decide, by decide, by decide⟩

/-- C5 amended: restricted to the two runnable encodings (struct and
NaN-boxed), decoding the same logical (tag, payload) agrees: normalized
tag and the payload accessors coincide for every enumerated non-float tag
and 32-bit payload, and for every double; NaNs are the only divergence in
payload (the NaN-boxed layout normalizes them to the canonical NaN while
the struct layout preserves the payload). -/
theorem C5_runnable_encodings_agree :
    (∀ tag ∈ jsNonFloatTags, ∀ val : Int, -2147483648 ≤ val → val ≤ 2147483647 →
      SV.JS_VALUE_GET_NORM_TAG (SV.JS_MKVAL tag val) = NB.JS_VALUE_GET_NORM_TAG (NB.JS_MKVAL tag val) ∧
      SV.JS_VALUE_GET_INT (SV.JS_MKVAL tag val) = NB.JS_VALUE_GET_INT (NB.JS_MKVAL tag val) ∧
      SV.JS_VALUE_GET_BOOL (SV.JS_MKVAL tag val) = NB.JS_VALUE_GET_BOOL (NB.JS_MKVAL tag val) ∧
      SV.JS_VALUE_GET_SHORT_BIG_INT (SV.JS_MKVAL tag val) =
        NB.JS_VALUE_GET_SHORT_BIG_INT (NB.JS_MKVAL tag val)) ∧
    (∀ d : Nat, d < 18446744073709551616 →
      SV.JS_VALUE_GET_NORM_TAG (SV.__JS_NewFloat64 d) =
        NB.JS_VALUE_GET_NORM_TAG (NB.__JS_NewFloat64 d)) ∧
    (∀ d : Nat, d < 18446744073709551616 → f64_is_nan d = false →
      SV.JS_VALUE_GET_FLOAT64 (SV.__JS_NewFloat64 d) =
        NB.JS_VALUE_GET_FLOAT64 (NB.__JS_NewFloat64 d)) ∧
    (∀ d : Nat, f64_is_nan d = true →
      NB.JS_VALUE_GET_FLOAT64 (NB.__JS_NewFloat64 d) = 0x7ff8000000000000) := by
  refine ⟨?_, ?_, ?_, nb_getfloat_newfloat_nan⟩
  · intro tag htag val hv1 hv2
    obtain ⟨ht1, ht2⟩ := jsNonFloatTags_bounds tag htag
    have hsv : SV.JS_VALUE_GET_NORM_TAG (SV.JS_MKVAL tag val) = tag := by
      show wrap32 tag = tag
      exact wrap32_small (by omega) (by omega)
    have hp : SV.JS_VALUE_GET_INT (SV.JS_MKVAL tag val) =
        NB.JS_VALUE_GET_INT (NB.JS_MKVAL tag val) := by
      rw [sv_get_int_mkval, nb_get_int_mkval]
    refine ⟨?_, hp, hp, hp⟩
    rw [hsv, nb_norm_tag_mkval tag val (by omega) (by omega)]
  · intro d hd
    have hsv : SV.JS_VALUE_GET_NORM_TAG (SV.__JS_NewFloat64 d) = JS_TAG_FLOAT64 := by
      show wrap32 JS_TAG_FLOAT64 = JS_TAG_FLOAT64
      decide
    rw [hsv, nb_newfloat_norm_tag d hd]
  · intro d hd hn
    show d = NB.JS_VALUE_GET_FLOAT64 (NB.__JS_NewFloat64 d)
    rw [nb_getfloat_newfloat_nonnan d hd hn]

/-- C5 witness: concrete agreement at tag JS_TAG_NULL, payload 0, and at
the double 1.0. -/
theorem C5_witness :
    SV.JS_VALUE_GET_NORM_TAG (SV.JS_MKVAL JS_TAG_NULL 0) =
      NB.JS_VALUE_GET_NORM_TAG (NB.JS_MKVAL JS_TAG_NULL 0) ∧
    SV.JS_VALUE_GET_FLOAT64 (SV.__JS_NewFloat64 0x3ff0000000000000) =
      NB.JS_VALUE_GET_FLOAT64 (NB.__JS_NewFloat64 0x3ff0000000000000) :=
  ⟨(C5_runnable_encodings_agree.1 JS_TAG_NULL (by decide) 0 (by decide) (by decide)).1,
   C5_runnable_encodings_agree.2.2.1 0x3ff0000000000000 (by decide)
     (by rw [show f64_is_nan 0x3ff0000000000000 = decide (0x3ff0000000000000 % 9223372036854775808 > 9218868437227405312) from by rw [Bool.eq_iff_iff, f64_is_nan_iff, decide_eq_true_eq]]; norm_num)⟩

theorem f64round_le (n s : Nat) : f64round n s ≤ n / 2 ^ s + 1 := by
  unfold f64round
  split_ifs <;> omega

/-- The double bit pattern of any natural number up to 2^63 fits below
2^63 (its biased exponent is at most 1087). -/
theorem natToF64bits_lt (n : Nat) (h : n ≤ 9223372036854775808) :
    natToF64bits n < 9223372036854775808 := by
  unfold natToF64bits
  by_cases h0 : n = 0
  · rw [if_pos h0]
    norm_num
  · rw [if_neg h0]
    have he : Nat.log2 n ≤ 63 := by
      have h64 := (Nat.log2_lt h0).mpr (show n < 2 ^ 64 by omega)
      omega
    have hn2 : n < 2 ^ (Nat.log2 n + 1) := (Nat.log2_lt h0).mp (by omega)
    by_cases hle : Nat.log2 n ≤ 52
    · rw [if_pos hle]
      have hm : n * 2 ^ (52 - Nat.log2 n) < 2 ^ 53 := by
        calc n * 2 ^ (52 - Nat.log2 n)
            < 2 ^ (Nat.log2 n + 1) * 2 ^ (52 - Nat.log2 n) :=
              Nat.mul_lt_mul_of_lt_of_le hn2 (Nat.le_refl _) (Nat.two_pow_pos _)
          _ = 2 ^ 53 := by
              rw [← pow_add]
              congr 1
              omega
      omega
    · rw [if_neg hle]
      have hq : n / 2 ^ (Nat.log2 n - 52) < 9007199254740992 := by
        rw [Nat.div_lt_iff_lt_mul (Nat.two_pow_pos _)]
        calc n < 2 ^ (Nat.log2 n + 1) := hn2
          _ = 9007199254740992 * 2 ^ (Nat.log2 n - 52) := by
              rw [show (9007199254740992 : Nat) = 2 ^ 53 by norm_num, ← pow_add]
              congr 1
              omega
      have hfr := f64round_le n (Nat.log2 n - 52)
      split_ifs <;> omega

/-- The double bit pattern of any int64 value fits in 64 bits. -/
theorem i64ToF64_lt (v : Int) (h1 : -9223372036854775808 ≤ v)
    (h2 : v ≤ 9223372036854775807) :
    i64ToF64 v < 18446744073709551616 := by
  unfold i64ToF64
  split_ifs with h0
  · have := natToF64bits_lt v.toNat (by omega)
    omega
  · have := natToF64bits_lt (-v).toNat (by omega)
    omega

/-- C7: value construction from a 64-bit integer auto-selects the
representation by range, in both runnable layouts: JS_NewInt64 returns the
inline integer JS_MKVAL(JS_TAG_INT, v) exactly when INT32_MIN <= v <=
INT32_MAX and otherwise a float64 value encoding (double)v (its normalized
tag is JS_TAG_FLOAT64, not JS_TAG_INT); JS_NewUint32 returns the inline
integer exactly when v <= INT32_MAX and otherwise a float64 value encoding
(double)v. -/
theorem C7_int64_uint32_range_selection :
    (∀ v : Int, -9223372036854775808 ≤ v → v ≤ 9223372036854775807 →
      ((-2147483648 ≤ v ∧ v ≤ 2147483647) →
        NB.JS_NewInt64 v = NB.JS_MKVAL JS_TAG_INT v ∧
        SV.JS_NewInt64 v = SV.JS_MKVAL JS_TAG_INT v) ∧
      (¬(-2147483648 ≤ v ∧ v ≤ 2147483647) →
        NB.JS_NewInt64 v = NB.__JS_NewFloat64 (i64ToF64 v) ∧
        NB.JS_VALUE_GET_NORM_TAG (NB.JS_NewInt64 v) = JS_TAG_FLOAT64 ∧
        NB.JS_VALUE_GET_TAG (NB.JS_NewInt64 v) ≠ JS_TAG_INT ∧
        SV.JS_NewInt64 v = SV.__JS_NewFloat64 (i64ToF64 v) ∧
        SV.JS_VALUE_GET_NORM_TAG (SV.JS_NewInt64 v) = JS_TAG_FLOAT64)) ∧
    (∀ w : Nat, w < 4294967296 →
      (w ≤ 2147483647 →
        NB.JS_NewUint32 w = NB.JS_MKVAL JS_TAG_INT w ∧
        SV.JS_NewUint32 w = SV.JS_MKVAL JS_TAG_INT w) ∧
      (2147483647 < w →
        NB.JS_NewUint32 w = NB.__JS_NewFloat64 (natToF64bits w) ∧
        NB.JS_VALUE_GET_NORM_TAG (NB.JS_NewUint32 w) = JS_TAG_FLOAT64 ∧
        NB.JS_VALUE_GET_TAG (NB.JS_NewUint32 w) ≠ JS_TAG_INT ∧
        SV.JS_NewUint32 w = SV.__JS_NewFloat64 (natToF64bits w) ∧
        SV.JS_VALUE_GET_NORM_TAG (SV.JS_NewUint32 w) = JS_TAG_FLOAT64)) := by
  constructor
  · intro v hv1 hv2
    constructor
    · intro hr
      constructor
      · unfold NB.JS_NewInt64
        rw [if_pos hr]
        unfold NB.JS_NewInt32 NB.JS_MKVAL
        rw [u32_wrap32]
      · unfold SV.JS_NewInt64
        rw [if_pos hr]
        unfold SV.JS_NewInt32 SV.JS_MKVAL
        rw [u32_wrap32]
    · intro hnr
      have hd : i64ToF64 v < 18446744073709551616 := i64ToF64_lt v hv1 hv2
      have hnb : NB.JS_NewInt64 v = NB.__JS_NewFloat64 (i64ToF64 v) := by
        unfold NB.JS_NewInt64
        rw [if_neg hnr]
        rfl
      have hsv : SV.JS_NewInt64 v = SV.__JS_NewFloat64 (i64ToF64 v) := by
        unfold SV.JS_NewInt64
        rw [if_neg hnr]
        rfl
      refine ⟨hnb, ?_, ?_, hsv, ?_⟩
      · rw [hnb]
        exact nb_newfloat_norm_tag _ hd
      · rw [hnb]
        exact (nb_newfloat_not_ref _ hd).2 JS_TAG_INT (by decide) (by decide)
      · rw [hsv]
        show wrap32 JS_TAG_FLOAT64 = JS_TAG_FLOAT64
        decide
  · intro w hw
    constructor
    · intro hr
      have hiw : i32 w = (w : Int) := by
        unfold i32 wrap32
        omega
      constructor
      · unfold NB.JS_NewUint32
        rw [if_pos hr]
        unfold NB.JS_NewInt32 NB.JS_MKVAL
        rw [hiw]
      · unfold SV.JS_NewUint32
        rw [if_pos hr]
        unfold SV.JS_NewInt32 SV.JS_MKVAL
        rw [hiw]
    · intro hnr
      have hd : natToF64bits w < 18446744073709551616 := by
        have := natToF64bits_lt w (by omega)
        omega
      have hnb : NB.JS_NewUint32 w = NB.__JS_NewFloat64 (natToF64bits w) := by
        unfold NB.JS_NewUint32
        rw [if_neg (by omega)]
        rfl
      have hsv : SV.JS_NewUint32 w = SV.__JS_NewFloat64 (natToF64bits w) := by
        unfold SV.JS_NewUint32
        rw [if_neg (by omega)]
        rfl
      refine ⟨hnb, ?_, ?_, hsv, ?_⟩
      · rw [hnb]
        exact nb_newfloat_norm_tag _ hd
      · rw [hnb]
        exact (nb_newfloat_not_ref _ hd).2 JS_TAG_INT (by decide) (by decide)
      · rw [hsv]
        show wrap32 JS_TAG_FLOAT64 = JS_TAG_FLOAT64
        decide

/-- C7 witness: 2^31 is out of int32 range, so JS_NewInt64 encodes it as a
float64; 7 is in range, so it stays an inline integer. -/
theorem C7_witness :
    NB.JS_NewInt64 2147483648 = NB.__JS_NewFloat64 (i64ToF64 2147483648) ∧
    NB.JS_VALUE_GET_NORM_TAG (NB.JS_NewInt64 2147483648) = JS_TAG_FLOAT64 ∧
    NB.JS_NewInt64 7 = NB.JS_MKVAL JS_TAG_INT 7 :=
  ⟨((C7_int64_uint32_range_selection.1 2147483648 (by decide) (by decide)).2 (by decide)).1,
   ((C7_int64_uint32_range_selection.1 2147483648 (by decide) (by decide)).2 (by decide)).2.1,
   ((C7_int64_uint32_range_selection.1 7 (by decide) (by decide)).1 (by decide)).1⟩

/-- The seven type-class predicates of the public inspection surface,
applied to a NaN-boxed value, in the order: number, big-int, bool, null,
undefined, uninitialized, exception. -/
def classPreds_NB (v : Nat) : List Bool :=
  [NB.JS_IsNumber v, NB.JS_IsBigInt v, NB.JS_IsBool v, NB.JS_IsNull v,
   NB.JS_IsUndefined v, NB.JS_IsUninitialized v, NB.JS_IsException v]

/-- The seven type-class predicates applied to a struct-layout value, in
the order: number, big-int, bool, null, undefined, uninitialized,
exception. -/
def classPreds_SV (v : SV.JSValue) : List Bool :=
  [SV.JS_IsNumber v, SV.JS_IsBigInt v, SV.JS_IsBool v, SV.JS_IsNull v,
   SV.JS_IsUndefined v, SV.JS_IsUninitialized v, SV.JS_IsException v]

/-- Classification of a NaN-boxed JS_MKVAL value with an enumerated
non-float tag: each predicate reduces to a comparison on the tag. -/
theorem nb_class_mkval (tag val : Int) (h1 : -9 ≤ tag) (h2 : tag ≤ 7) :
    classPreds_NB (NB.JS_MKVAL tag val) =
      [tag == JS_TAG_INT, tag == JS_TAG_BIG_INT || tag == JS_TAG_SHORT_BIG_INT,
       tag == JS_TAG_BOOL, tag == JS_TAG_NULL, tag == JS_TAG_UNDEFINED,
       tag == JS_TAG_UNINITIALIZED, tag == JS_TAG_EXCEPTION] := by
  have ht : NB.JS_VALUE_GET_TAG (NB.JS_MKVAL tag val) = tag := by
    rw [nb_get_tag_mkval]
    exact wrap32_small (by omega) (by omega)
  have hfl : NB.JS_TAG_IS_FLOAT64 tag = false := by
    unfold NB.JS_TAG_IS_FLOAT64 JS_TAG_FIRST JS_TAG_FLOAT64 u32
    simp only [decide_eq_false_iff_not]
    omega
  unfold classPreds_NB NB.JS_IsNumber NB.JS_IsBigInt NB.JS_IsBool NB.JS_IsNull
    NB.JS_IsUndefined NB.JS_IsUninitialized NB.JS_IsException
  rw [ht, hfl]
  simp only [Bool.or_false]

/-- Classification of a struct-layout JS_MKVAL value with an enumerated
non-float tag. -/
theorem sv_class_mkval (tag val : Int) (h1 : -9 ≤ tag) (h2 : tag ≤ 7) :
    classPreds_SV (SV.JS_MKVAL tag val) =
      [tag == JS_TAG_INT, tag == JS_TAG_BIG_INT || tag == JS_TAG_SHORT_BIG_INT,
       tag == JS_TAG_BOOL, tag == JS_TAG_NULL, tag == JS_TAG_UNDEFINED,
       tag == JS_TAG_UNINITIALIZED, tag == JS_TAG_EXCEPTION] := by
  have ht : SV.JS_VALUE_GET_TAG (SV.JS_MKVAL tag val) = tag := by
    rw [sv_get_tag_mkval]
    exact wrap32_small (by omega) (by omega)
  have hfl : SV.JS_TAG_IS_FLOAT64 tag = false := by
    unfold SV.JS_TAG_IS_FLOAT64 JS_TAG_FLOAT64 u32
    simp only [beq_eq_false_iff_ne, ne_eq]
    omega
  unfold classPreds_SV SV.JS_IsNumber SV.JS_IsBigInt SV.JS_IsBool SV.JS_IsNull
    SV.JS_IsUndefined SV.JS_IsUninitialized SV.JS_IsException
  rw [ht, hfl]
  simp only [Bool.or_false]

/-- Classification of a NaN-boxed float value: exactly JS_IsNumber. -/
theorem nb_class_float (d : Nat) (hd : d < 18446744073709551616) :
    classPreds_NB (NB.__JS_NewFloat64 d) =
      [true, false, false, false, false, false, false] := by
  have hf := nb_newfloat_is_float64 d hd
  have hrange := (nb_newfloat_not_ref d hd).2
  have hne : ∀ c : Int, -9 ≤ c → c ≤ 8 →
      (NB.JS_VALUE_GET_TAG (NB.__JS_NewFloat64 d) == c) = false :=
    fun c hc1 hc2 => beq_eq_false_iff_ne.mpr (hrange c hc1 hc2)
  unfold classPreds_NB NB.JS_IsNumber NB.JS_IsBigInt NB.JS_IsBool NB.JS_IsNull
    NB.JS_IsUndefined NB.JS_IsUninitialized NB.JS_IsException
  rw [hf, hne JS_TAG_INT (by decide) (by decide), hne JS_TAG_BIG_INT (by decide) (by decide),
    hne JS_TAG_SHORT_BIG_INT (by decide) (by decide), hne JS_TAG_BOOL (by decide) (by decide),
    hne JS_TAG_NULL (by decide) (by decide), hne JS_TAG_UNDEFINED (by decide) (by decide),
    hne JS_TAG_UNINITIALIZED (by decide) (by decide),
    hne JS_TAG_EXCEPTION (by decide) (by decide)]
  rfl

/-- Classification of a struct-layout float value: exactly JS_IsNumber. -/
theorem sv_class_float (d : Nat) :
    classPreds_SV (SV.__JS_NewFloat64 d) =
      [true, false, false, false, false, false, false] := rfl

/-- C8: in both runnable layouts the inspection predicates classify
constructed values without overlap. The classification vector lists
(JS_IsNumber, JS_IsBigInt, JS_IsBool, JS_IsNull, JS_IsUndefined,
JS_IsUninitialized, JS_IsException); every constructor below yields a
vector with exactly one true entry: JS_IsNumber for JS_NewInt32,
JS_NewFloat64, JS_NewInt64 and JS_NewUint32; JS_IsBigInt for
__JS_NewShortBigInt; JS_IsBool for JS_NewBool; and JS_IsNull,
JS_IsUndefined, JS_IsUninitialized, JS_IsException respectively for
JS_NULL, JS_UNDEFINED, JS_UNINITIALIZED and JS_EXCEPTION. -/
theorem C8_inspection_predicates_classify :
    (∀ val : Int,
      classPreds_NB (NB.JS_NewInt32 val) = [true, false, false, false, false, false, false] ∧
      classPreds_SV (SV.JS_NewInt32 val) = [true, false, false, false, false, false, false]) ∧
    (∀ d : Nat, d < 18446744073709551616 →
      classPreds_NB (NB.JS_NewFloat64 d) = [true, false, false, false, false, false, false] ∧
      classPreds_SV (SV.JS_NewFloat64 d) = [true, false, false, false, false, false, false]) ∧
    (∀ v : Int, -9223372036854775808 ≤ v → v ≤ 9223372036854775807 →
      classPreds_NB (NB.JS_NewInt64 v) = [true, false, false, false, false, false, false] ∧
      classPreds_SV (SV.JS_NewInt64 v) = [true, false, false, false, false, false, false]) ∧
    (∀ w : Nat, w < 4294967296 →
      classPreds_NB (NB.JS_NewUint32 w) = [true, false, false, false, false, false, false] ∧
      classPreds_SV (SV.JS_NewUint32 w) = [true, false, false, false, false, false, false]) ∧
    (∀ s : Int,
      classPreds_NB (NB.__JS_NewShortBigInt s) = [false, true, false, false, false, false, false] ∧
      classPreds_SV (SV.__JS_NewShortBigInt s) = [false, true, false, false, false, false, false]) ∧
    (∀ b : Bool,
      classPreds_NB (NB.JS_NewBool b) = [false, false, true, false, false, false, false] ∧
      classPreds_SV (SV.JS_NewBool b) = [false, false, true, false, false, false, false]) ∧
    (classPreds_NB NB.JS_NULL = [false, false, false, true, false, false, false] ∧
     classPreds_SV SV.JS_NULL = [false, false, false, true, false, false, false]) ∧
    (classPreds_NB NB.JS_UNDEFINED = [false, false, false, false, true, false, false] ∧
     classPreds_SV SV.JS_UNDEFINED = [false, false, false, false, true, false, false]) ∧
    (classPreds_NB NB.JS_UNINITIALIZED = [false, false, false, false, false, true, false] ∧
     classPreds_SV SV.JS_UNINITIALIZED = [false, false, false, false, false, true, false]) ∧
    (classPreds_NB NB.JS_EXCEPTION = [false, false, false, false, false, false, true] ∧
     classPreds_SV SV.JS_EXCEPTION = [false, false, false, false, false, false, true]) := by
  refine ⟨?_, ?_, ?_, ?_, ?_, ?_, ?_, ?_, ?_, ?_⟩
  · intro val
    constructor
    · show classPreds_NB (NB.JS_MKVAL JS_TAG_INT val) = _
      rw [nb_class_mkval JS_TAG_INT val (by decide) (by decide)]
      decide
    · show classPreds_SV (SV.JS_MKVAL JS_TAG_INT val) = _
      rw [sv_class_mkval JS_TAG_INT val (by decide) (by decide)]
      decide
  · intro d hd
    exact ⟨nb_class_float d hd, sv_class_float d⟩
  · intro v hv1 hv2
    constructor
    · unfold NB.JS_NewInt64
      by_cases hr : -2147483648 ≤ v ∧ v ≤ 2147483647
      · rw [if_pos hr]
        show classPreds_NB (NB.JS_MKVAL JS_TAG_INT (wrap32 v)) = _
        rw [nb_class_mkval JS_TAG_INT (wrap32 v) (by decide) (by decide)]
        decide
      · rw [if_neg hr]
        exact nb_class_float _ (i64ToF64_lt v hv1 hv2)
    · unfold SV.JS_NewInt64
      by_cases hr : -2147483648 ≤ v ∧ v ≤ 2147483647
      · rw [if_pos hr]
        show classPreds_SV (SV.JS_MKVAL JS_TAG_INT (wrap32 v)) = _
        rw [sv_class_mkval JS_TAG_INT (wrap32 v) (by decide) (by decide)]
        decide
      · rw [if_neg hr]
        exact sv_class_float _
  · intro w hw
    constructor
    · unfold NB.JS_NewUint32
      by_cases hr : w ≤ 2147483647
      · rw [if_pos hr]
        show classPreds_NB (NB.JS_MKVAL JS_TAG_INT (i32 w)) = _
        rw [nb_class_mkval JS_TAG_INT (i32 w) (by decide) (by decide)]
        decide
      · rw [if_neg hr]
        exact nb_class_float _ (by have := natToF64bits_lt w (by omega); omega)
    · unfold SV.JS_NewUint32
      by_cases hr : w ≤ 2147483647
      · rw [if_pos hr]
        show classPreds_SV (SV.JS_MKVAL JS_TAG_INT (i32 w)) = _
        rw [sv_class_mkval JS_TAG_INT (i32 w) (by decide) (by decide)]
        decide
      · rw [if_neg hr]
        exact sv_class_float _
  · intro s
    constructor
    · show classPreds_NB (NB.JS_MKVAL JS_TAG_SHORT_BIG_INT s) = _
      rw [nb_class_mkval JS_TAG_SHORT_BIG_INT s (by decide) (by decide)]
      decide
    · show classPreds_SV (SV.JS_MKVAL JS_TAG_SHORT_BIG_INT s) = _
      rw [sv_class_mkval JS_TAG_SHORT_BIG_INT s (by decide) (by decide)]
      decide
  · intro b
    constructor
    · show classPreds_NB (NB.JS_MKVAL JS_TAG_BOOL (if b then 1 else 0)) = _
      rw [nb_class_mkval JS_TAG_BOOL _ (by decide) (by decide)]
      decide
    · show classPreds_SV (SV.JS_MKVAL JS_TAG_BOOL (if b then 1 else 0)) = _
      rw [sv_class_mkval JS_TAG_BOOL _ (by decide) (by decide)]
      decide
  · constructor
    · show classPreds_NB (NB.JS_MKVAL JS_TAG_NULL 0) = _
      rw [nb_class_mkval JS_TAG_NULL 0 (by decide) (by decide)]
      decide
    · show classPreds_SV (SV.JS_MKVAL JS_TAG_NULL 0) = _
      rw [sv_class_mkval JS_TAG_NULL 0 (by decide) (by decide)]
      decide
  · constructor
    · show classPreds_NB (NB.JS_MKVAL JS_TAG_UNDEFINED 0) = _
      rw [nb_class_mkval JS_TAG_UNDEFINED 0 (by decide) (by decide)]
      decide
    · show classPreds_SV (SV.JS_MKVAL JS_TAG_UNDEFINED 0) = _
      rw [sv_class_mkval JS_TAG_UNDEFINED 0 (by decide) (by decide)]
      decide
  · constructor
    · show classPreds_NB (NB.JS_MKVAL JS_TAG_UNINITIALIZED 0) = _
      rw [nb_class_mkval JS_TAG_UNINITIALIZED 0 (by decide) (by decide)]
      decide
    · show classPreds_SV (SV.JS_MKVAL JS_TAG_UNINITIALIZED 0) = _
      rw [sv_class_mkval JS_TAG_UNINITIALIZED 0 (by decide) (by decide)]
      decide
  · constructor
    · show classPreds_NB (NB.JS_MKVAL JS_TAG_EXCEPTION 0) = _
      rw [nb_class_mkval JS_TAG_EXCEPTION 0 (by decide) (by decide)]
      decide
    · show classPreds_SV (SV.JS_MKVAL JS_TAG_EXCEPTION 0) = _
      rw [sv_class_mkval JS_TAG_EXCEPTION 0 (by decide) (by decide)]
      decide

/-- C8 witness: concrete classifications of an int and a short big int. -/
theorem C8_witness :
    classPreds_NB (NB.JS_NewFloat64 0x4000000000000000) =
      [true, false, false, false, false, false, false] ∧
    classPreds_NB (NB.__JS_NewShortBigInt 42) =
      [false, true, false, false, false, false, false] :=
  ⟨(C8_inspection_predicates_classify.2.1 0x4000000000000000 (by decide)).1,
   (C8_inspection_predicates_classify.2.2.2.2.1 42).1⟩
